import Mathlib

/-!
Verification of the visit-authorization lifecycle implemented in `qr-code.py`.

Embedding conventions:
* Timestamps and durations are exact rational numbers of seconds, represented
  by the in-file type `Frac` (numerator/denominator in lowest terms; Mathlib's
  `Rat` arithmetic is `@[irreducible]`, which would block `decide`-style
  evaluation of the embedded program on concrete inputs).  Python
  `datetime`/`timedelta` values enter the model as the instants/second counts
  they denote; `isoformat`/`fromisoformat` round-trips are modelled as the
  identity on those values.
* Python `float` literals that appear in the claims are exact decimals, so
  floats are modelled as exact rationals; `float(...)` / `int(...)` parsing of
  a token is modelled for the plain sign+digits(+fraction) literal forms (the
  exotic forms Python also accepts — exponents, `inf`/`nan`, underscores — are
  outside every claim and noted where relevant).
* The persisted JSON store `scans.json` holds a single object under the key
  `"visitor"`; it is modelled as `Option Visitor`.
* The YOLO detector and Streamlit widgets are external collaborators: the
  detector's output for the first result's boxes is an input list of
  (label, confidence) pairs, and button presses / uploads are input flags.
-/

namespace QrCode

/-! ## String helpers (Python `lower/strip/split/replace/in/endswith`) -/

/-- Boolean list-is-a-leading-segment test (`List.isPrefixOf` spelled out so
that every string helper reduces by `decide`). -/
def isPrefixB : List Char → List Char → Bool
  | [], _ => true
  | _ :: _, [] => false
  | a :: as, b :: bs => a = b && isPrefixB as bs

/-- Does `pat` occur as a contiguous run inside `l`?  Models Python `pat in s`. -/
def containsSubAux (pat : List Char) : List Char → Bool
  | [] => pat.isEmpty
  | c :: rest => isPrefixB pat (c :: rest) || containsSubAux pat rest

/-- Python `pat in s` on strings. -/
def strContainsSub (s pat : String) : Bool := containsSubAux pat.data s.data

/-- Python `s.endswith(pat)`. -/
def endsWithB (s pat : String) : Bool := isPrefixB pat.data.reverse s.data.reverse

/-- Python `s.lower()` (ASCII case folding). -/
def pyLower (s : String) : String := ⟨s.data.map Char.toLower⟩

/-- Python `s.lower().strip()` (ASCII case folding, whitespace trimming). -/
def pyLowerTrim (s : String) : String :=
  let cs := (pyLower s).data
  let cs := cs.dropWhile Char.isWhitespace
  ⟨(cs.reverse.dropWhile Char.isWhitespace).reverse⟩

/-- Accumulating worker for whitespace tokenisation (Python `s.split()`):
runs of whitespace separate tokens, empty tokens are dropped. -/
def tokensAux : List Char → List Char → List (List Char)
  | cur, [] => if cur.isEmpty then [] else [cur.reverse]
  | cur, c :: rest =>
    if Char.isWhitespace c then
      if cur.isEmpty then tokensAux [] rest else cur.reverse :: tokensAux [] rest
    else tokensAux (c :: cur) rest

/-- Python `s.split()`. -/
def pyTokens (s : String) : List String := (tokensAux [] s.data).map fun l => ⟨l⟩

/-- Fuel-indexed worker replacing every non-overlapping occurrence of `pat`
left-to-right, exactly as Python `str.replace` does for a non-empty pattern.
Every step consumes at least one character, so fuel equal to the list's
length processes the whole list; structural recursion on the fuel keeps the
definition kernel-reducible. -/
def replaceAllFuel (pat rep : List Char) : Nat → List Char → List Char
  | 0, l => l
  | _ + 1, [] => []
  | fuel + 1, c :: rest =>
    if !pat.isEmpty && isPrefixB pat (c :: rest) then
      rep ++ replaceAllFuel pat rep fuel ((c :: rest).drop pat.length)
    else
      c :: replaceAllFuel pat rep fuel rest

/-- Python `s.replace(pat, rep)`. -/
def pyReplace (s pat rep : String) : String :=
  ⟨replaceAllFuel pat.data rep.data s.data.length s.data⟩

/-- Worker for Python `s.split(sep)` with a single-character separator:
splits at every occurrence, keeping empty pieces. -/
def splitCharAux (sep : Char) : List Char → List Char → List (List Char)
  | cur, [] => [cur.reverse]
  | cur, c :: rest =>
    if c = sep then cur.reverse :: splitCharAux sep [] rest
    else splitCharAux sep (c :: cur) rest

/-- Python `s.split(":")`. -/
def splitColon (s : String) : List String := (splitCharAux ':' [] s.data).map fun l => ⟨l⟩

/-! ## Exact rational arithmetic (kernel-computable) -/

/-- Exact rational number in lowest terms with positive denominator; the
arithmetic below is plain `Int`/`Nat` computation, so every value the
embedded program produces evaluates inside the kernel. -/
structure Frac where
  num : ℤ
  den : ℕ
deriving DecidableEq

/-- Normalised fraction `n / d`. -/
def Frac.norm (n : ℤ) (d : ℕ) : Frac :=
  let g := Nat.gcd n.natAbs d
  if g = 0 then ⟨n, d⟩ else ⟨n / (g : ℤ), d / g⟩

/-- Embed an integer. -/
def Frac.ofInt (n : ℤ) : Frac := ⟨n, 1⟩

instance (n : Nat) : OfNat Frac n := ⟨⟨(n : ℤ), 1⟩⟩

instance : Neg Frac := ⟨fun a => ⟨-a.num, a.den⟩⟩

instance : Mul Frac := ⟨fun a b => Frac.norm (a.num * b.num) (a.den * b.den)⟩

instance : Add Frac :=
  ⟨fun a b => Frac.norm (a.num * b.den + b.num * a.den) (a.den * b.den)⟩

instance : Sub Frac := ⟨fun a b => a + -b⟩

instance : LT Frac := ⟨fun a b => a.num * (b.den : ℤ) < b.num * (a.den : ℤ)⟩

instance : LE Frac := ⟨fun a b => a.num * (b.den : ℤ) ≤ b.num * (a.den : ℤ)⟩

instance (a b : Frac) : Decidable (a < b) :=
  inferInstanceAs (Decidable (a.num * (b.den : ℤ) < b.num * (a.den : ℤ)))

instance (a b : Frac) : Decidable (a ≤ b) :=
  inferInstanceAs (Decidable (a.num * (b.den : ℤ) ≤ b.num * (a.den : ℤ)))

/-! ## Numeric token parsing (Python `float(...)` / `int(...)`) -/

/-- Decimal value of a digit run. -/
def digitsVal (cs : List Char) : Nat :=
  cs.foldl (fun a c => 10 * a + (c.toNat - ('0').toNat)) 0

/-- Python `float(tok)` on the plain literal forms `[+-]?digits`,
`[+-]?digits.digits`, `[+-]?.digits`, `[+-]?digits.` — the only forms the
claims exercise; anything else is a parse failure (Python `ValueError`). -/
def pyFloat (t : String) : Option Frac :=
  let cs := t.data
  let signRest : Bool × List Char :=
    match cs with
    | '-' :: r => (true, r)
    | '+' :: r => (false, r)
    | r => (false, r)
  let neg := signRest.1
  let body := signRest.2
  let ip := body.takeWhile Char.isDigit
  let rest := body.dropWhile Char.isDigit
  let mag : Option Frac :=
    match rest with
    | [] => if ip.isEmpty then none else some (Frac.ofInt (digitsVal ip))
    | '.' :: fp =>
      if fp.all Char.isDigit && !(ip.isEmpty && fp.isEmpty) then
        some (Frac.norm (digitsVal ip * 10 ^ fp.length + digitsVal fp)
          (10 ^ fp.length))
      else none
    | _ => none
  mag.map fun m => if neg then -m else m

/-- Python `int(tok)` on the plain literal forms `[+-]?digits`. -/
def pyInt (t : String) : Option ℤ :=
  match t.data with
  | '-' :: r => if !r.isEmpty && r.all Char.isDigit then some (-(digitsVal r : ℤ)) else none
  | '+' :: r => if !r.isEmpty && r.all Char.isDigit then some (digitsVal r : ℤ) else none
  | r => if !r.isEmpty && r.all Char.isDigit then some (digitsVal r : ℤ) else none

/-! ## `parse_estimated_time` (qr-code.py lines 56–77) -/

/-- Condition of the hour branch:
`"hour" in s or "hr" in s or (s.endswith("h") and len(s) > 1)`. -/
def hourCond (s : String) : Bool :=
  strContainsSub s "hour" || strContainsSub s "hr" ||
    (endsWithB s "h" && decide (1 < s.length))

/-- Condition of the minute branch: `"min" in s or (s.endswith("m") and len(s) > 1)`. -/
def minCond (s : String) : Bool :=
  strContainsSub s "min" || (endsWithB s "m" && decide (1 < s.length))

/-- Condition of the colon branch: `":" in s`. -/
def colonCond (s : String) : Bool := s.data.contains ':'

/-- `parse_estimated_time(time_str)`, returning seconds.  Each Python
exception path inside the `try` block (missing first token, failed
`float`/`int` conversion, wrong number of colon pieces) lands on the
30-minute (1800 s) fallback, exactly as the `except` clause does. -/
def parse_estimated_time (time_str : String) : Frac :=
  let s := pyLowerTrim time_str
  if hourCond s then
    match (pyTokens s).head? with
    | none => 1800
    | some tok =>
      match pyFloat (pyReplace (pyReplace tok "h" "") "hr" "") with
      | some num => num * 3600
      | none => 1800
  else if minCond s then
    match (pyTokens s).head? with
    | none => 1800
    | some tok =>
      match pyFloat (pyReplace (pyReplace tok "min" "") "m" "") with
      | some num => num * 60
      | none => 1800
  else if colonCond s then
    match splitColon s with
    | [hs, ms] =>
      match pyInt hs, pyInt ms with
      | some hv, some mv => Frac.ofInt hv * 3600 + Frac.ofInt mv * 60
      | _, _ => 1800
    | _ => 1800
  else 1800

/-- True when the (lowercased, stripped) input enters any of the three
recognised-unit branches of `parse_estimated_time`. -/
def recognizedUnit (time_str : String) : Bool :=
  let s := pyLowerTrim time_str
  hourCond s || minCond s || colonCond s

/-! ## Data model: the `"visitor"` object of `scans.json` (qr-code.py 184–196) -/

/-- The single persisted visit record, with the exact fields written by
`page_generator` (lines 184–196) plus `id_filename`, which the visitor page
adds on a successful identity upload (line 285).  `scan_time` is `none` until
security confirms; `expiry_time` is the end-of-day instant in seconds. -/
structure Visitor where
  token : String
  visitor_name : String
  homeowner_name : String
  block_number : String
  purpose : String
  estimated_time : String
  scan_time : Option Frac
  expiry_time : Frac
  id_uploaded : Bool
  id_filename : Option String
deriving DecidableEq

/-- The record built by `page_generator` on "Generate QR Link" (lines 179–196):
the free-text `estimated_time` is stored verbatim, `scan_time` starts null and
`id_uploaded` false.  The random token and the end-of-day expiry computed from
the wall clock enter as parameters. -/
def issueRecord (token visitor_name homeowner_name block_number purpose
    estimated_time : String) (expiry_time : Frac) : Visitor :=
  { token, visitor_name, homeowner_name, block_number, purpose, estimated_time,
    scan_time := none, expiry_time, id_uploaded := false, id_filename := none }

/-- `save_json(DB_FILE, data)` at line 197: the whole `scans.json` file is
rewritten with a dict holding only the freshly built record, so the resulting
store is the new record regardless of what was stored before. -/
def page_generator (store : Option Visitor) (token visitor_name homeowner_name
    block_number purpose estimated_time : String) (expiry_time : Frac) :
    Option Visitor :=
  let _ := store
  some (issueRecord token visitor_name homeowner_name block_number purpose
    estimated_time expiry_time)

/-! ## Identity detector interface (qr-code.py 268–279) -/

/-- One uploaded artifact together with the external detector's output for the
first result's boxes: `(label, confidence)` pairs with the confidence as a
fraction in `[0,1]`, as `box.conf` is before the `* 100.0` at line 275. -/
structure Upload where
  name : String
  detections : List (String × Frac)
deriving DecidableEq

/-- The per-box acceptance test of lines 273–277:
`"id" in label and conf >= 70.0`, where `label` is lowercased and
`conf = float(box.conf) * 100.0`. -/
def isValidIdBox (label : String) (conf : Frac) : Bool :=
  strContainsSub (pyLower label) "id" && decide ((70 : Frac) ≤ conf * 100)

/-- `found_valid_id` after the loop of lines 269–279: some box passes the test. -/
def found_valid_id (dets : List (String × Frac)) : Bool :=
  dets.any fun p => isValidIdBox p.1 p.2

/-! ## Visitor page step (qr-code.py 226–316) -/

/-- Outcome displayed by one run of `page_visitor`. -/
inductive VisitorResult where
  | missingToken
  | notRecognized
  | expired
  | idAccepted
  | idRejected
  | awaitUpload
  | timeLeft (remaining : Frac)
  | stayExpired
  | waitingForSecurity
deriving DecidableEq

/-- One run of `page_visitor`: the token query parameter (`None` or a string;
the empty string is falsy in Python, line 233), the current instant, and the
optionally uploaded artifact with its detector verdict.  Returns the displayed
outcome and the store after the run.  The detector-exception early return
(lines 263–266), which leaves the store unchanged, is not modelled; uploads
carry a completed detector result. -/
def page_visitor (store : Option Visitor) (tokenParam : Option String)
    (now : Frac) (upload : Option Upload) : VisitorResult × Option Visitor :=
  match tokenParam with
  | none => (.missingToken, store)
  | some token =>
    if token = "" then (.missingToken, store)
    else
      match store with
      | none => (.notRecognized, none)
      | some v =>
        if v.token = token then
          if v.expiry_time < now then (.expired, some v)
          else if v.id_uploaded then
            match v.scan_time with
            | some scanned =>
              if 0 < scanned + parse_estimated_time v.estimated_time - now then
                (.timeLeft (scanned + parse_estimated_time v.estimated_time - now),
                  some v)
              else (.stayExpired, some v)
            | none => (.waitingForSecurity, some v)
          else
            match upload with
            | none => (.awaitUpload, some v)
            | some u =>
              if found_valid_id u.detections then
                (.idAccepted,
                  some { v with id_uploaded := true, id_filename := some u.name })
              else (.idRejected, some v)
        else (.notRecognized, some v)

/-! ## Security page step (qr-code.py 321–385) -/

/-- Outcome displayed by one run of `page_security` (after security login,
which guards the whole page and is an external role check).  The two
`alreadyConfirmed…` outcomes are the "Scanned At + countdown" display of
lines 368–378, the page's response to a token whose entry was already
confirmed. -/
inductive SecurityResult where
  | notRecognized
  | noActiveVisitor
  | expired
  | confirmed
  | awaitConfirm
  | alreadyConfirmedTimeLeft (remaining : Frac)
  | alreadyConfirmedStayOver
deriving DecidableEq

/-- Lines 348–378: the part of the security page reached once the loaded
record is known to match the presented token (or no token was presented).
`press` is whether the guard presses "Confirm Entry". -/
def security_visitor_view (v : Visitor) (now : Frac) (press : Bool) :
    SecurityResult × Option Visitor :=
  if v.expiry_time < now then (.expired, some v)
  else
    match v.scan_time with
    | none =>
      if press then (.confirmed, some { v with scan_time := some now })
      else (.awaitConfirm, some v)
    | some scanned =>
      if 0 < scanned + parse_estimated_time v.estimated_time - now then
        (.alreadyConfirmedTimeLeft
          (scanned + parse_estimated_time v.estimated_time - now), some v)
      else (.alreadyConfirmedStayOver, some v)

/-- The no-token route of the security page (lines 344–346 onwards). -/
def securityNoToken (store : Option Visitor) (now : Frac) (press : Bool) :
    SecurityResult × Option Visitor :=
  match store with
  | none => (.noActiveVisitor, none)
  | some v => security_visitor_view v now press

/-- One run of `page_security` for a logged-in guard: query-parameter token
(`None` and `""` are both falsy at line 338), current instant, and whether the
confirm button is pressed.  Returns the displayed outcome and the store after
the run. -/
def page_security (store : Option Visitor) (tokenParam : Option String)
    (now : Frac) (press : Bool) : SecurityResult × Option Visitor :=
  match tokenParam with
  | some t =>
    if t = "" then securityNoToken store now press
    else
      match store with
      | none => (.notRecognized, none)
      | some v =>
        if v.token = t then security_visitor_view v now press
        else (.notRecognized, some v)
  | none => securityNoToken store now press

/-! ## SHA-256 (FIPS 180-4), modelling `hashlib.sha256(...).hexdigest()`
used by `hash_password` / `verify_password` (qr-code.py 37–41).  Words are
`Nat`s reduced mod `2^32`. -/

/-- `2^32`, the word modulus. -/
def w32 : Nat := 4294967296

/-- Addition mod `2^32`. -/
def add32 (a b : Nat) : Nat := (a + b) % w32

/-- Right rotation of a 32-bit word (`x < 2^32`). -/
def rotr32 (n x : Nat) : Nat := ((x >>> n) ||| (x <<< (32 - n))) % w32

/-- Bitwise complement within 32 bits. -/
def not32 (x : Nat) : Nat := Nat.xor x (w32 - 1)

/-- `Ch(x,y,z) = (x ∧ y) ⊕ (¬x ∧ z)`. -/
def ch32 (x y z : Nat) : Nat := Nat.xor (Nat.land x y) (Nat.land (not32 x) z)

/-- `Maj(x,y,z) = (x ∧ y) ⊕ (x ∧ z) ⊕ (y ∧ z)`. -/
def maj32 (x y z : Nat) : Nat :=
  Nat.xor (Nat.xor (Nat.land x y) (Nat.land x z)) (Nat.land y z)

/-- `Σ₀(x) = ROTR²(x) ⊕ ROTR¹³(x) ⊕ ROTR²²(x)`. -/
def bigSigma0 (x : Nat) : Nat :=
  Nat.xor (Nat.xor (rotr32 2 x) (rotr32 13 x)) (rotr32 22 x)

/-- `Σ₁(x) = ROTR⁶(x) ⊕ ROTR¹¹(x) ⊕ ROTR²⁵(x)`. -/
def bigSigma1 (x : Nat) : Nat :=
  Nat.xor (Nat.xor (rotr32 6 x) (rotr32 11 x)) (rotr32 25 x)

/-- `σ₀(x) = ROTR⁷(x) ⊕ ROTR¹⁸(x) ⊕ SHR³(x)`. -/
def smallSigma0 (x : Nat) : Nat :=
  Nat.xor (Nat.xor (rotr32 7 x) (rotr32 18 x)) (x >>> 3)

/-- `σ₁(x) = ROTR¹⁷(x) ⊕ ROTR¹⁹(x) ⊕ SHR¹⁰(x)`. -/
def smallSigma1 (x : Nat) : Nat :=
  Nat.xor (Nat.xor (rotr32 17 x) (rotr32 19 x)) (x >>> 10)

/-- The 64 round constants `K` of FIPS 180-4 §4.2.2 (decimal). -/
def sha256K : List Nat :=
  [1116352408, 1899447441, 3049323471, 3921009573, 961987163,
   1508970993, 2453635748, 2870763221, 3624381080, 310598401,
   607225278, 1426881987, 1925078388, 2162078206, 2614888103,
   3248222580, 3835390401, 4022224774, 264347078, 604807628,
   770255983, 1249150122, 1555081692, 1996064986, 2554220882,
   2821834349, 2952996808, 3210313671, 3336571891, 3584528711,
   113926993, 338241895, 666307205, 773529912, 1294757372,
   1396182291, 1695183700, 1986661051, 2177026350, 2456956037,
   2730485921, 2820302411, 3259730800, 3345764771, 3516065817,
   3600352804, 4094571909, 275423344, 430227734, 506948616,
   659060556, 883997877, 958139571, 1322822218, 1537002063,
   1747873779, 1955562222, 2024104815, 2227730452, 2361852424,
   2428436474, 2756734187, 3204031479, 3329325298]

/-- The initial hash value `H⁽⁰⁾` of FIPS 180-4 §5.3.3 (decimal). -/
def sha256H0 : List Nat :=
  [1779033703, 3144134277, 1013904242, 2773480762,
   1359893119, 2600822924, 528734635, 1541459225]

/-- Message-schedule expansion: extend the 16 block words to 64 with
`W[i] = σ₁(W[i−2]) + W[i−7] + σ₀(W[i−15]) + W[i−16]  (mod 2^32)`. -/
def msgSchedule (block : List Nat) : Array Nat :=
  (List.range 48).foldl
    (fun acc j =>
      let i := j + 16
      acc.push (add32
        (add32 (acc.getD (i - 16) 0) (smallSigma0 (acc.getD (i - 15) 0)))
        (add32 (acc.getD (i - 7) 0) (smallSigma1 (acc.getD (i - 2) 0)))))
    block.toArray

/-- One round of the compression function on the state `[a,b,c,d,e,f,g,h]`. -/
def compressStep (st : List Nat) (ki wi : Nat) : List Nat :=
  match st with
  | [a, b, c, d, e, f, g, h] =>
    let t1 := add32 h (add32 (bigSigma1 e) (add32 (ch32 e f g) (add32 ki wi)))
    let t2 := add32 (bigSigma0 a) (maj32 a b c)
    [add32 t1 t2, a, b, c, add32 d t1, e, f, g]
  | st => st

/-- Process one 16-word block: 64 rounds, then add the previous hash value. -/
def compressBlock (hIn block : List Nat) : List Nat :=
  let w := msgSchedule block
  let st := (List.range 64).foldl
    (fun st i => compressStep st (sha256K.getD i 0) (w.getD i 0)) hIn
  (hIn.zip st).map fun p => add32 p.1 p.2

/-- FIPS 180-4 §5.1.1 padding of a byte message: append `0x80`, zero bytes to
reach 56 mod 64, then the bit length as 8 big-endian bytes. -/
def padMessage (msg : List Nat) : List Nat :=
  let L := msg.length
  let k := (119 - L % 64) % 64
  let bitLen := 8 * L
  msg ++ 0x80 :: List.replicate k 0 ++
    (List.range 8).map fun i => (bitLen >>> (8 * (7 - i))) % 256

/-- Group bytes into big-endian 32-bit words. -/
def bytesToWords : List Nat → List Nat
  | b0 :: b1 :: b2 :: b3 :: rest =>
    (((b0 * 256 + b1) * 256 + b2) * 256 + b3) :: bytesToWords rest
  | _ => []

/-- Group words into 16-word blocks. -/
def wordsToBlocks : List Nat → List (List Nat)
  | w0 :: w1 :: w2 :: w3 :: w4 :: w5 :: w6 :: w7 ::
    w8 :: w9 :: w10 :: w11 :: w12 :: w13 :: w14 :: w15 :: rest =>
    [w0, w1, w2, w3, w4, w5, w6, w7, w8, w9, w10, w11, w12, w13, w14, w15] ::
      wordsToBlocks rest
  | _ => []

/-- SHA-256 of a byte message, as the list of the 8 final hash words. -/
def sha256Words (msg : List Nat) : List Nat :=
  (wordsToBlocks (bytesToWords (padMessage msg))).foldl compressBlock sha256H0

/-- Lowercase hexadecimal digit. -/
def hexDigit (n : Nat) : Char :=
  if n < 10 then Char.ofNat (('0').toNat + n) else Char.ofNat (('a').toNat + (n - 10))

/-- Big-endian 8-hex-digit rendering of a 32-bit word. -/
def word2hex (w : Nat) : List Char :=
  (List.range 8).map fun i => hexDigit ((w >>> (4 * (7 - i))) % 16)

/-- Hex digest of a byte message. -/
def sha256HexBytes (msg : List Nat) : String :=
  ⟨((sha256Words msg).map word2hex).flatten⟩

/-- UTF-8 encoding of one character (RFC 3629), modelling Python
`str.encode()`. -/
def utf8EncodeChar (c : Char) : List Nat :=
  let n := c.toNat
  if n < 0x80 then [n]
  else if n < 0x800 then [0xc0 + n / 64, 0x80 + n % 64]
  else if n < 0x10000 then
    [0xe0 + n / 4096, 0x80 + n / 64 % 64, 0x80 + n % 64]
  else
    [0xf0 + n / 262144, 0x80 + n / 4096 % 64, 0x80 + n / 64 % 64, 0x80 + n % 64]

/-- Python `s.encode()` (UTF-8 bytes). -/
def strToBytes (s : String) : List Nat := (s.data.map utf8EncodeChar).flatten

/-- `hashlib.sha256(s.encode()).hexdigest()`. -/
def sha256_hex (s : String) : String := sha256HexBytes (strToBytes s)

/-- `hash_password` (qr-code.py 37–38). -/
def hash_password (password : String) : String := sha256_hex password

/-- `verify_password` (qr-code.py 40–41). -/
def verify_password (stored_hash plain_password : String) : Bool :=
  stored_hash == hash_password plain_password

/-! ## Concrete sample data used by witnesses and counterexamples -/

/-- A freshly issued record: identity not yet verified, entry not confirmed,
valid until 86399 s (23:59:59 of the issuance day). -/
def sampleVisitor : Visitor :=
  issueRecord "tok123" "Alice" "bob@example.com" "12" "maintenance" "1 hour" 86399

/-- The same record after a successful identity upload and an entry
confirmation at 36000 s (10:00). -/
def sampleConfirmed : Visitor :=
  { sampleVisitor with
    id_uploaded := true
    id_filename := some "passport.jpg"
    scan_time := some 36000 }

/-- An upload whose detector verdict contains an identity-document box above
the 70% confidence threshold. -/
def sampleUpload : Upload :=
  { name := "passport.jpg", detections := [("national id", Frac.norm 9 10)] }

/-! ## Helper lemmas -/

set_option maxRecDepth 40000 in
/-- Sanity check that the embedded SHA-256 is the standard one: the FIPS 180-4
test vector for `"abc"`. -/
theorem sha256_matches_fips_vector :
    sha256_hex "abc" =
      "ba7816bf8f01cfea414140de5dae2223b00361a396177a9cb410ff61f20015ad" := by
  decide

/-- The box scan accepts exactly when some detection pairs an `"id"`-labelled
class with confidence at least 0.70. -/
theorem found_valid_id_iff (dets : List (String × Frac)) :
    found_valid_id dets = true ↔
      ∃ p ∈ dets, strContainsSub (pyLower p.1) "id" = true ∧ (70 : Frac) ≤ p.2 * 100 := by
  simp [found_valid_id, isValidIdBox, List.any_eq_true, Bool.and_eq_true,
    decide_eq_true_iff]

/-- No run of the visitor page changes the stored `scan_time`: the only write
it performs flips `id_uploaded` and records the filename. -/
theorem page_visitor_preserves_scan_time (v : Visitor) (tp : Option String)
    (now : Frac) (up : Option Upload) :
    (page_visitor (some v) tp now up).2.map Visitor.scan_time = some v.scan_time := by
  rcases tp with _ | t
  · rfl
  · by_cases ht : t = ""
    · simp [page_visitor, ht]
    · by_cases htok : v.token = t
      · by_cases hexp : v.expiry_time < now
        · simp [page_visitor, ht, htok, hexp]
        · by_cases hid : v.id_uploaded
          · rcases hsc : v.scan_time with _ | sc
            · simp [page_visitor, ht, htok, hexp, hid, hsc]
            · by_cases hpos : 0 < sc + parse_estimated_time v.estimated_time - now
              · simp [page_visitor, ht, htok, hexp, hid, hsc, hpos]
              · simp [page_visitor, ht, htok, hexp, hid, hsc, hpos]
          · rcases up with _ | u
            · simp [page_visitor, ht, htok, hexp, hid]
            · by_cases hf : found_valid_id u.detections
              · simp [page_visitor, ht, htok, hexp, hid, hf]
              · simp [page_visitor, ht, htok, hexp, hid, hf]
      · simp [page_visitor, ht, htok]

/-- Once `scan_time` is set, the token-matched portion of the security page
never writes and never reports a fresh confirmation. -/
theorem security_view_scanned (v : Visitor) (t0 now : Frac) (press : Bool)
    (h : v.scan_time = some t0) :
    (security_visitor_view v now press).2 = some v ∧
    (security_visitor_view v now press).1 ≠ SecurityResult.confirmed := by
  by_cases hexp : v.expiry_time < now
  · simp [security_visitor_view, hexp]
  · by_cases hpos : 0 < t0 + parse_estimated_time v.estimated_time - now
    · simp [security_visitor_view, hexp, h, hpos]
    · simp [security_visitor_view, hexp, h, hpos]

/-- Once `scan_time` is set, no route of the security page writes or reports a
fresh confirmation, whatever token is presented and whether or not the
confirm button is pressed. -/
theorem page_security_scanned (v : Visitor) (t0 : Frac) (tp : Option String)
    (now : Frac) (press : Bool) (h : v.scan_time = some t0) :
    (page_security (some v) tp now press).2 = some v ∧
    (page_security (some v) tp now press).1 ≠ SecurityResult.confirmed := by
  rcases tp with _ | t
  · simpa [page_security, securityNoToken] using security_view_scanned v t0 now press h
  · by_cases ht : t = ""
    · simpa [page_security, securityNoToken, ht] using
        security_view_scanned v t0 now press h
    · by_cases htok : v.token = t
      · simpa [page_security, ht, htok] using security_view_scanned v t0 now press h
      · simp [page_security, ht, htok]

/-! ## Claims -/

/-- C1: entry confirmation is one-time only.  For a record whose `scan_time`
is already set, neither the security page (any token, any button press) nor
the visitor page changes the stored `scan_time`, the security page never
reports a fresh confirmation, and an actual repeat attempt on the record's
own token is answered with the already-confirmed display. -/
theorem c1_confirmation_one_time (v : Visitor) (t0 now : Frac) (press : Bool)
    (tp : Option String) (up : Option Upload) (hset : v.scan_time = some t0) :
    (page_security (some v) tp now press).2 = some v ∧
    (page_security (some v) tp now press).1 ≠ SecurityResult.confirmed ∧
    (page_visitor (some v) tp now up).2.map Visitor.scan_time = some (some t0) ∧
    (v.token ≠ "" → ¬ v.expiry_time < now →
      (page_security (some v) (some v.token) now press).1 =
          SecurityResult.alreadyConfirmedTimeLeft
            (t0 + parse_estimated_time v.estimated_time - now) ∨
        (page_security (some v) (some v.token) now press).1 =
          SecurityResult.alreadyConfirmedStayOver) := by
  obtain ⟨h1, h2⟩ := page_security_scanned v t0 tp now press hset
  refine ⟨h1, h2, ?_, ?_⟩
  · rw [page_visitor_preserves_scan_time, hset]
  · intro hne hexp
    by_cases hpos : 0 < t0 + parse_estimated_time v.estimated_time - now
    · left
      simp [page_security, security_visitor_view, hne, hexp, hset, hpos]
    · right
      simp [page_security, security_visitor_view, hne, hexp, hset, hpos]

/-- C1 witness: a second confirmation press on the already-confirmed sample
record leaves the store untouched and is not reported as a confirmation. -/
theorem c1_witness :
    (page_security (some sampleConfirmed) (some "tok123") 37000 true).2 =
        some sampleConfirmed ∧
    (page_security (some sampleConfirmed) (some "tok123") 37000 true).1 ≠
        SecurityResult.confirmed :=
  ⟨(c1_confirmation_one_time sampleConfirmed 36000 37000 true (some "tok123")
      none rfl).1,
   (c1_confirmation_one_time sampleConfirmed 36000 37000 true (some "tok123")
      none rfl).2.1⟩

/-- C2 counterexample: issuing a credential under a fresh, distinct token does
not leave the previously stored record intact and does not fail — the old
record is replaced wholesale. -/
theorem c2_counterexample :
    page_generator (some sampleConfirmed) "newTok" "Carol" "dan@example.com"
        "7" "delivery" "2 hours" 86399 =
      some (issueRecord "newTok" "Carol" "dan@example.com" "7" "delivery"
        "2 hours" 86399) ∧
    (issueRecord "newTok" "Carol" "dan@example.com" "7" "delivery" "2 hours"
        86399).token ≠ sampleConfirmed.token ∧
    issueRecord "newTok" "Carol" "dan@example.com" "7" "delivery" "2 hours"
        86399 ≠ sampleConfirmed := by
  refine ⟨rfl, by decide, by decide⟩

/-- C2 amended: issuance always succeeds and rewrites the store's single
visitor slot with the freshly built record alone — the outcome is independent
of whatever was stored before, and the new record starts unconfirmed and
unverified. -/
theorem c2_amended_overwrite (s₁ s₂ : Option Visitor)
    (tok vn hn bn pu est : String) (exp : Frac) :
    page_generator s₁ tok vn hn bn pu est exp =
        page_generator s₂ tok vn hn bn pu est exp ∧
    page_generator s₁ tok vn hn bn pu est exp =
        some (issueRecord tok vn hn bn pu est exp) ∧
    (issueRecord tok vn hn bn pu est exp).scan_time = none ∧
    (issueRecord tok vn hn bn pu est exp).id_uploaded = false :=
  ⟨rfl, rfl, rfl, rfl⟩

/-- C3 counterexample: on the security page a confirmation attempt for a
record with `id_uploaded = false` is not rejected — it succeeds and stamps
`scan_time`. -/
theorem c3_counterexample :
    sampleVisitor.id_uploaded = false ∧
    page_security (some sampleVisitor) (some "tok123") 36000 true =
      (SecurityResult.confirmed,
        some { sampleVisitor with scan_time := some 36000 }) := by
  refine ⟨rfl, by decide⟩

/-- C3 amended: the security confirmation path performs no identity check —
for any unexpired, matching, not-yet-confirmed record the confirm press
succeeds and stamps `scan_time`, whatever `id_uploaded` is; identity gating
exists only on the visitor page, which withholds the gate QR code (and shows
the upload prompt) until the identity gate accepts. -/
theorem c3_amended_no_identity_check (v : Visitor) (tok : String) (now : Frac)
    (hmatch : v.token = tok) (hne : tok ≠ "") (hexp : ¬ v.expiry_time < now)
    (hsc : v.scan_time = none) :
    page_security (some v) (some tok) now true =
      (SecurityResult.confirmed, some { v with scan_time := some now }) ∧
    (v.id_uploaded = false →
      (page_visitor (some v) (some tok) now none).1 = VisitorResult.awaitUpload) := by
  constructor
  · simp [page_security, security_visitor_view, hne, hmatch, hexp, hsc]
  · intro hid
    simp [page_visitor, hne, hmatch, hexp, hid]

/-- C3 amended witness: the unverified sample record is confirmed at 36000 s. -/
theorem c3_witness :
    page_security (some sampleVisitor) (some "tok123") 36000 true =
      (SecurityResult.confirmed,
        some { sampleVisitor with scan_time := some 36000 }) :=
  (c3_amended_no_identity_check sampleVisitor "tok123" 36000 rfl (by decide)
    (by decide) rfl).1

/-- C4: past `expiry_time`, presenting the record's token to either the
visitor check-in page or the security page yields the expired outcome and the
store is left unchanged — no upload handling and no confirmation happens,
whatever the other fields hold. -/
theorem c4_expired_always_rejected (v : Visitor) (tok : String) (now : Frac)
    (press : Bool) (up : Option Upload)
    (hmatch : v.token = tok) (hne : tok ≠ "") (hexp : v.expiry_time < now) :
    page_visitor (some v) (some tok) now up = (VisitorResult.expired, some v) ∧
    page_security (some v) (some tok) now press =
      (SecurityResult.expired, some v) := by
  constructor
  · simp [page_visitor, hne, hmatch, hexp]
  · simp [page_security, security_visitor_view, hne, hmatch, hexp]

/-- C4 witness: at 90000 s (past the 86399 s end of day) the sample token is
rejected as expired on both pages, even with an upload pending and the
confirm button pressed. -/
theorem c4_witness :
    page_visitor (some sampleVisitor) (some "tok123") 90000 (some sampleUpload) =
        (VisitorResult.expired, some sampleVisitor) ∧
    page_security (some sampleVisitor) (some "tok123") 90000 true =
        (SecurityResult.expired, some sampleVisitor) :=
  c4_expired_always_rejected sampleVisitor "tok123" 90000 true
    (some sampleUpload) rfl (by decide) (by decide)

/-- C5: evaluation at the failing input.  `"1hr"` enters the hour branch (its
`hourCond` holds) yet falls back to the 30-minute default, because
`"1hr".replace("h","")` yields `"1r"`, which `float` rejects — while the
spaced forms and the claim's own examples parse to the exact scaled value. -/
theorem c5_failing_input_eval :
    parse_estimated_time "1hr" = 1800 ∧
    hourCond (pyLowerTrim "1hr") = true ∧
    parse_estimated_time "1 hr" = 3600 ∧
    parse_estimated_time "1 hour" = 3600 ∧
    parse_estimated_time "2 hours" = 7200 ∧
    parse_estimated_time "30 mins" = 1800 ∧
    parse_estimated_time "1:30" = 5400 := by
  refine ⟨by decide, by decide, by decide, by decide, by decide, by decide,
    by decide⟩

/-- C6: the parser is total by construction, and every input that enters none
of the three recognised-unit branches gets the 30-minute (1800 s) default. -/
theorem c6_parse_default_fallback (s : String)
    (h : recognizedUnit s = false) : parse_estimated_time s = 1800 := by
  unfold recognizedUnit at h
  simp only [Bool.or_eq_false_iff] at h
  unfold parse_estimated_time
  simp [h.1.1, h.1.2, h.2]

/-- C6 witness: the malformed duration `"soon"` matches no unit and falls
back to 30 minutes. -/
theorem c6_witness :
    recognizedUnit "soon" = false ∧ parse_estimated_time "soon" = 1800 :=
  ⟨by decide, c6_parse_default_fallback "soon" (by decide)⟩

/-- C7: the identity gate accepts exactly when some detection carries an
`"id"`-labelled class with confidence at least 0.70; on accept the record gains
`id_uploaded = true` and the artifact's filename, on reject it is unchanged. -/
theorem c7_identity_gate (v : Visitor) (tok : String) (now : Frac) (u : Upload)
    (hmatch : v.token = tok) (hne : tok ≠ "") (hexp : ¬ v.expiry_time < now)
    (hid : v.id_uploaded = false) :
    ((page_visitor (some v) (some tok) now (some u)).1 =
        VisitorResult.idAccepted ↔
      ∃ p ∈ u.detections,
        strContainsSub (pyLower p.1) "id" = true ∧ (70 : Frac) ≤ p.2 * 100) ∧
    ((page_visitor (some v) (some tok) now (some u)).1 =
        VisitorResult.idAccepted →
      (page_visitor (some v) (some tok) now (some u)).2 =
        some { v with id_uploaded := true, id_filename := some u.name }) ∧
    ((page_visitor (some v) (some tok) now (some u)).1 ≠
        VisitorResult.idAccepted →
      (page_visitor (some v) (some tok) now (some u)).1 =
          VisitorResult.idRejected ∧
        (page_visitor (some v) (some tok) now (some u)).2 = some v) := by
  by_cases hf : found_valid_id u.detections
  · have hrun : page_visitor (some v) (some tok) now (some u) =
        (VisitorResult.idAccepted,
          some { v with id_uploaded := true, id_filename := some u.name }) := by
      simp [page_visitor, hne, hmatch, hexp, hid, hf]
    rw [hrun]
    refine ⟨?_, fun _ => rfl, fun hne2 => absurd rfl hne2⟩
    simpa using (found_valid_id_iff u.detections).mp hf
  · have hrun : page_visitor (some v) (some tok) now (some u) =
        (VisitorResult.idRejected, some v) := by
      simp [page_visitor, hne, hmatch, hexp, hid, hf]
    rw [hrun]
    refine ⟨?_, by simp, fun _ => ⟨rfl, rfl⟩⟩
    constructor
    · intro hcontra
      exact absurd hcontra (by simp)
    · intro hex
      exact absurd ((found_valid_id_iff u.detections).mpr hex) hf

/-- C7 witness: the sample upload (label `"national id"`, confidence 0.9) is
accepted and the record gains the verified flag and the filename. -/
theorem c7_witness :
    (page_visitor (some sampleVisitor) (some "tok123") 100 (some sampleUpload)).2 =
      some { sampleVisitor with
             id_uploaded := true
             id_filename := some "passport.jpg" } :=
  (c7_identity_gate sampleVisitor "tok123" 100 sampleUpload rfl (by decide)
    (by decide) rfl).2.1 (by decide)

/-- C8 counterexample: the stored duration field is the raw free text, not a
normalised duration — two inputs with the same parsed duration are stored
differently — and the countdown shown on a later visitor-page run is computed
by parsing that stored text again. -/
theorem c8_counterexample :
    (issueRecord "t1" "v" "h" "b" "p" "30 mins" 86399).estimated_time =
        "30 mins" ∧
    (issueRecord "t2" "v" "h" "b" "p" "soon" 86399).estimated_time = "soon" ∧
    parse_estimated_time "30 mins" = parse_estimated_time "soon" ∧
    ("30 mins" : String) ≠ "soon" ∧
    (page_visitor
        (some { sampleVisitor with id_uploaded := true, scan_time := some 36000 })
        (some "tok123") 36010 none).1 = VisitorResult.timeLeft 3590 := by
  refine ⟨rfl, rfl, by decide, by decide, by decide⟩

/-- C8 amended: the free-text duration string is stored verbatim by issuance,
and `parse_estimated_time` is applied to the stored text each time a page
computes the remaining stay time after confirmation. -/
theorem c8_amended_reparse (tok vn hn bn pu est : String) (exp : Frac)
    (v : Visitor) (sc now : Frac)
    (hne : v.token ≠ "") (hexp : ¬ v.expiry_time < now)
    (hid : v.id_uploaded = true) (hsc : v.scan_time = some sc)
    (hpos : 0 < sc + parse_estimated_time v.estimated_time - now) :
    (issueRecord tok vn hn bn pu est exp).estimated_time = est ∧
    (page_visitor (some v) (some v.token) now none).1 =
      VisitorResult.timeLeft (sc + parse_estimated_time v.estimated_time - now) ∧
    (page_security (some v) (some v.token) now false).1 =
      SecurityResult.alreadyConfirmedTimeLeft
        (sc + parse_estimated_time v.estimated_time - now) := by
  refine ⟨rfl, ?_, ?_⟩
  · simp [page_visitor, hne, hexp, hid, hsc, hpos]
  · simp [page_security, security_visitor_view, hne, hexp, hsc, hpos]

/-- C8 amended witness: the confirmed sample record (stored text `"1 hour"`,
confirmed at 36000 s) shows 3590 s left at 36010 s on the visitor page. -/
theorem c8_witness :
    (page_visitor (some sampleConfirmed) (some "tok123") 36010 none).1 =
      VisitorResult.timeLeft 3590 :=
  (c8_amended_reparse "t" "v" "h" "b" "p" "e" 0 sampleConfirmed 36000 36010
    (by decide) (by decide) rfl rfl (by decide)).2.1

/-- C9: password-hash round trip — `verify_password` accepts the stored hash
of the presented password, and accepts a stored hash exactly when it equals
the SHA-256 hex digest of the password. -/
theorem c9_password_roundtrip (h p : String) :
    verify_password (hash_password p) p = true ∧
    (verify_password h p = true ↔ h = sha256_hex p) := by
  constructor
  · simp [verify_password]
  · simp [verify_password, hash_password]

/-- C10: a successful confirmation writes exactly the `scan_time` field; every
other field of the record is unchanged. -/
theorem c10_confirm_frame (v : Visitor) (tok : String) (now : Frac)
    (hmatch : v.token = tok) (hne : tok ≠ "") (hexp : ¬ v.expiry_time < now)
    (hsc : v.scan_time = none) :
    page_security (some v) (some tok) now true =
      (SecurityResult.confirmed, some { v with scan_time := some now }) ∧
    ({ v with scan_time := some now } : Visitor).scan_time = some now ∧
    ({ v with scan_time := some now } : Visitor).token = v.token ∧
    ({ v with scan_time := some now } : Visitor).visitor_name = v.visitor_name ∧
    ({ v with scan_time := some now } : Visitor).homeowner_name =
        v.homeowner_name ∧
    ({ v with scan_time := some now } : Visitor).block_number = v.block_number ∧
    ({ v with scan_time := some now } : Visitor).purpose = v.purpose ∧
    ({ v with scan_time := some now } : Visitor).estimated_time =
        v.estimated_time ∧
    ({ v with scan_time := some now } : Visitor).expiry_time = v.expiry_time ∧
    ({ v with scan_time := some now } : Visitor).id_uploaded = v.id_uploaded ∧
    ({ v with scan_time := some now } : Visitor).id_filename = v.id_filename := by
  refine ⟨?_, rfl, rfl, rfl, rfl, rfl, rfl, rfl, rfl, rfl, rfl⟩
  simp [page_security, security_visitor_view, hne, hmatch, hexp, hsc]

/-- C10 witness: confirming the sample record at 36000 s stamps `scan_time`
and keeps every other field. -/
theorem c10_witness :
    page_security (some sampleVisitor) (some "tok123") 36000 true =
      (SecurityResult.confirmed,
        some { sampleVisitor with scan_time := some 36000 }) :=
  (c10_confirm_frame sampleVisitor "tok123" 36000 rfl (by decide) (by decide)
    rfl).1

end QrCode
